import Mathlib

/-!
Verification development for the DD_Tracing demonstration service.

The repository consists of three Python modules:
  * `logging_config.py` — configures the root / application / ddtrace loggers
    with a JSON stream handler writing to stdout;
  * `services/item_service.py` — `ItemService.process_item_data`, a stub that
    echoes its payload into a fixed output shape with logging around it;
  * `main.py` — a FastAPI app with a correlation-id middleware and the routes
    `GET /`, `GET /items/{item_id}` and `GET /error`.

The shallow embedding below models Python values as an inductive `PyVal`
(dicts are association lists in insertion order, as Python dicts preserve
insertion order), log emission as explicit lists of `LogEvent`s, exceptions
as `Except`, and the mutable state of the `logging` module as an explicit
`LoggingState` record threaded through `configure_logger`.
-/

/-- A Python value, restricted to the shapes this program manipulates:
strings, integers and (insertion-ordered) dictionaries. -/
inductive PyVal where
  | str : String → PyVal
  | int : Int → PyVal
  | dict : List (String × PyVal) → PyVal

/-- Log severities used by the program (Python numeric values in comments:
debug = 10, info = 20, warning = 30, error = 40). -/
inductive Level where
  | debug
  | info
  | warning
  | error
deriving DecidableEq

/-- One emitted log event: severity, message and the structured `extra`
mapping passed by the caller. -/
structure LogEvent where
  level : Level
  message : String
  extras : List (String × PyVal)

/-- A Python exception, observed only through its string representation
`str(e)` (which is all the program ever extracts from one). -/
structure PyError where
  msg : String
deriving DecidableEq

/-- First-match lookup in an association list (Python dict lookup: keys are
unique in a real dict, so first match is the match). -/
def lookupAssoc (l : List (String × PyVal)) (k : String) : Option PyVal :=
  match l with
  | [] => none
  | (k', v) :: rest => if k' = k then some v else lookupAssoc rest k

/-- Python `str.upper()` (the strings this program upper-cases are ASCII
level names). -/
def pyToUpper (s : String) : String :=
  String.mk (s.toList.map Char.toUpper)

/-- Python `str.lower()` (used for case-insensitive HTTP header names,
which are ASCII). -/
def pyToLower (s : String) : String :=
  String.mk (s.toList.map Char.toLower)

/-! ## services/item_service.py -/

/-- The successful result dictionary built inside the `try` block of
`ItemService.process_item_data`:
`{"id": item_id, "name": data.get("name", f"Item {item_id}"),
  "status": "processed", "original_data": data}`. -/
def itemRecord (item_id : Int) (data : List (String × PyVal)) : PyVal :=
  .dict [("id", .int item_id),
         ("name", (lookupAssoc data "name").getD (.str ("Item " ++ toString item_id))),
         ("status", .str "processed"),
         ("original_data", .dict data)]

/-- The body of the `try` block of `process_item_data`.  It only constructs a
dict literal and calls `dict.get` with a default, operations that do not
raise, so the embedded body always returns `Except.ok`. -/
def itemBody (item_id : Int) (data : List (String × PyVal)) :
    Except PyError PyVal :=
  .ok (itemRecord item_id data)

/-- The `try`/`except` skeleton of `process_item_data`, parametric in the
outcome of the `try` body: on success it logs at debug severity (including
the full output as `processed_data`) and returns the result; on a raised
fault it logs at error severity (including the exception detail) and
re-raises the same exception (`raise` with no argument). -/
def processWith (item_id : Int) (body : Except PyError PyVal) :
    Except PyError PyVal × List LogEvent :=
  match body with
  | .ok processed_data =>
      (.ok processed_data,
       [⟨.debug,
         "ItemService: Successfully processed data for item ID: " ++ toString item_id,
         [("processed_data", processed_data)]⟩])
  | .error e =>
      (.error e,
       [⟨.error,
         "ItemService: Error processing item ID " ++ toString item_id ++ ": " ++ e.msg,
         [("item_id", .int item_id)]⟩])

/-- The method `ItemService.process_item_data(item_id, data)`: logs the start at info
severity, runs the `try`/`except` over the actual body, and returns the
outcome together with all events logged during the call. -/
def process_item_data (item_id : Int) (data : List (String × PyVal)) :
    Except PyError PyVal × List LogEvent :=
  let startEvent : LogEvent :=
    ⟨.info, "ItemService: Starting to process item ID: " ++ toString item_id,
     [("item_id", .int item_id)]⟩
  let (result, bodyLogs) := processWith item_id (itemBody item_id data)
  (result, startEvent :: bodyLogs)

/-! ## main.py — HTTP surface -/

/-- An HTTP response as FastAPI renders it: a status code and a JSON body
(a returned dict becomes a 200 JSON body; a raised `HTTPException(code, d)`
becomes `code` with body `{"detail": d}`). -/
structure HttpResponse where
  status : Nat
  body : PyVal

/-- The routes declared by the app.  FastAPI dispatches on the path pattern
(with `{item_id}` parsed as an integer); routing itself belongs to the
external framework, so it is modelled as already performed. -/
inductive Route where
  | root
  | items (item_id : Int)
  | err
  | notFound

/-- An inbound request: its dispatched route and its header list. -/
structure HttpRequest where
  route : Route
  headers : List (String × String)

/-- Header read `request.headers.get(k)`: HTTP header lookup is case-insensitive
(Starlette lower-cases header names). -/
def headerGet (headers : List (String × String)) (k : String) : Option String :=
  (headers.find? (fun p => pyToLower p.1 == pyToLower k)).map (·.2)

/-- A Datadog trace span, observed only through its tag mapping. -/
structure Span where
  tags : List (String × String)

/-! ### GET /, GET /items/{item_id}, GET /error -/

/-- Handler `read_root`: logs one info event and returns the fixed greeting. -/
def read_root : HttpResponse × List LogEvent :=
  (⟨200, .dict [("message", .str "Hello from FastAPI, traced by Datadog!")]⟩,
   [⟨.info, "Handling root endpoint request.", []⟩])

/-- The `try`/`except` tail of the `read_item` route handler, parametric in
the outcome of the service call (result and the events it logged): on
success the processed result is returned as a 200 body after an info log;
on a fault the route logs the error again and raises
`HTTPException(status_code=500, detail=str(e))`, which FastAPI renders as a
500 response with body `{"detail": str(e)}`. -/
def read_item_with (item_id : Int)
    (svc : Except PyError PyVal × List LogEvent) :
    HttpResponse × List LogEvent :=
  match svc with
  | (.ok processed_result, svcLogs) =>
      (⟨200, processed_result⟩,
       svcLogs ++
        [⟨.info, "Successfully processed item " ++ toString item_id,
          [("processed_result", processed_result)]⟩])
  | (.error e, svcLogs) =>
      (⟨500, .dict [("detail", .str e.msg)]⟩,
       svcLogs ++
        [⟨.error,
          "Failed to process item " ++ toString item_id ++ " in API route: " ++ e.msg,
          [("item_id_param", .int item_id)]⟩])

/-- Handler `read_item(item_id, request)`: logs the received request (with the
correlation id in the extras when the header is present), builds
`item_data = {"name": f"Product {item_id}"}`, calls the service and runs the
route-level `try`/`except`. -/
def read_item (item_id : Int) (headers : List (String × String)) :
    HttpResponse × List LogEvent :=
  let correlation_id := headerGet headers "X-Correlation-ID"
  let log_extra : List (String × PyVal) :=
    match correlation_id with
    | some cid => [("item_id_param", .int item_id), ("request_correlation_id", .str cid)]
    | none => [("item_id_param", .int item_id)]
  let startEvent : LogEvent :=
    ⟨.info, "Received request for item ID: " ++ toString item_id, log_extra⟩
  let item_data : List (String × PyVal) :=
    [("name", .str ("Product " ++ toString item_id))]
  let (resp, logs) := read_item_with item_id (process_item_data item_id item_data)
  (resp, startEvent :: logs)

/-- Handler `simulate_error`: logs an error event and raises
`HTTPException(status_code=500, detail="An intentional server error occurred.")`,
rendered by FastAPI as a 500 response with that detail. -/
def simulate_error : HttpResponse × List LogEvent :=
  (⟨500, .dict [("detail", .str "An intentional server error occurred.")]⟩,
   [⟨.error, "Simulating an intentional error in the /error endpoint.", []⟩])

/-- The framework dispatch over the declared routes (unknown paths get
the standard FastAPI 404). -/
def app_call_next (req : HttpRequest) : HttpResponse × List LogEvent :=
  match req.route with
  | .root => read_root
  | .items item_id => read_item item_id req.headers
  | .err => simulate_error
  | .notFound => (⟨404, .dict [("detail", .str "Not Found")]⟩, [])

/-! ### The correlation middleware -/

/-- Python truthiness of an optional header value: `None` and the empty
string are falsy (`if correlation_id:`), any other string is truthy. -/
def pyTruthyOpt (s : Option String) : Bool :=
  match s with
  | none => false
  | some v => !(v == "")

/-- An exception escaping the middleware: either the AttributeError the
middleware itself raises (see `process_request_and_log_context`), or an
exception raised by the downstream handler, propagated unchanged. -/
inductive MWError (ε : Type) where
  | attributeError (msg : String)
  | downstream (e : ε)

/-- What the middleware produces: the response, or the exception escaping
it; the actual active span of the tracer afterwards; and the events the
middleware itself logged. -/
structure MWResult (ε : Type) where
  response : Except (MWError ε) HttpResponse
  span : Option Span
  logs : List LogEvent

/-- Middleware `process_request_and_log_context(request, call_next)`.

`activeSpan` is the span the tracer actually has active — what calling
`tracer.current_span()` would return.  Line 43 of `main.py` reads
`tracer.current_span` WITHOUT calling it, so the local name is bound to
the method object itself, which is non-None and truthy for every request,
and the real active span is never read or written.  Consequently, when
the `X-Correlation-ID` header is present and non-empty
(`if correlation_id:` — Python truthiness), the inner guard
`if current_span:` is always taken and
`current_span.set_tag("correlation_id", correlation_id)` raises
AttributeError (a method object has no `set_tag` attribute), BEFORE the
"Request started" log and BEFORE `call_next`; the warning branch for a
missing span is dead code.  When the header is absent or empty the whole
tagging block is skipped: the middleware logs "Request started", forwards
exactly one call downstream (its invocations observable through the
threaded state `σ`), logs "Request finished" with the status code on
normal return, and returns the downstream response unchanged (a
downstream exception propagates, skipping the finished log). -/
def process_request_and_log_context {σ ε : Type}
    (call_next : HttpRequest → σ → Except ε HttpResponse × σ)
    (activeSpan : Option Span) (req : HttpRequest) (s0 : σ) :
    MWResult ε × σ :=
  let correlation_id := headerGet req.headers "X-Correlation-ID"
  if pyTruthyOpt correlation_id then
    (⟨.error (.attributeError "method object has no attribute set_tag"),
      activeSpan, []⟩, s0)
  else
    let startedEvent : LogEvent := ⟨.info, "Request started", []⟩
    match call_next req s0 with
    | (.error e, s1) =>
        (⟨.error (.downstream e), activeSpan, [startedEvent]⟩, s1)
    | (.ok response, s1) =>
        (⟨.ok response, activeSpan,
          [startedEvent, ⟨.info, "Request finished",
            [("status_code", .int response.status)]⟩]⟩, s1)

/-- The application pipeline below the outermost error handler: the user
middleware wrapped around the framework dispatch.  Route handlers never
raise a non-HTTP exception in this program (FastAPI turns `HTTPException`
into a response before the user middleware sees it), so downstream always
returns `Except.ok`; the state `σ` collects the events logged by the route
handlers. -/
def handle (activeSpan : Option Span) (req : HttpRequest) :
    MWResult Empty × List LogEvent :=
  process_request_and_log_context
    (fun rq logs =>
      let (resp, routeLogs) := app_call_next rq
      (.ok resp, logs ++ routeLogs))
    activeSpan req []

/-- The server behavior as the client sees it: FastAPI wraps the user
middleware in Starlette ServerErrorMiddleware, which converts any
exception escaping the stack into a plain-text 500
"Internal Server Error" response. -/
def serve (activeSpan : Option Span) (req : HttpRequest) : HttpResponse :=
  match (handle activeSpan req).1.response with
  | .ok resp => resp
  | .error _ => ⟨500, .str "Internal Server Error"⟩

/-! ## logging_config.py -/

/-- The JSON format string passed to `jsonlogger.JsonFormatter`. -/
def fmtString : String :=
  "%(levelname)s %(asctime)s %(name)s %(message)s %(lineno)d %(pathname)s"

/-- Scanner for `%(field)X`-style format strings: outside a field, `%(`
opens one; inside (the accumulator holds the field name so far, reversed),
`)` closes it. -/
def fmtFieldsAux : Option (List Char) → List Char → List String
  | _, [] => []
  | some acc, ')' :: rest => String.mk acc.reverse :: fmtFieldsAux none rest
  | some acc, c :: rest => fmtFieldsAux (some (c :: acc)) rest
  | none, '%' :: '(' :: rest => fmtFieldsAux (some []) rest
  | none, _ :: rest => fmtFieldsAux none rest

/-- The record fields named in a `%(field)X`-style format string, in order
(this is how `JsonFormatter` determines its required output fields). -/
def parseFmtFields (fmt : String) : List String :=
  fmtFieldsAux none fmt.toList

/-- A stream handler: a fresh Python object per `StreamHandler(...)` call
(identified by an allocation id, since `Logger.addHandler` deduplicates by
object identity), its output stream, and the required fields of its
attached JSON formatter. -/
structure Handler where
  hid : Nat
  stream : String
  fmtFields : List String
deriving DecidableEq

/-- A logger as the `logging` module keeps it: its level (0 = NOTSET,
meaning inherit) and its handler list. -/
structure Logger where
  level : Nat
  handlers : List Handler
deriving DecidableEq

/-- The mutable state of the `logging` module: the root logger, the table
of named loggers created so far, and the allocation counter for handler
identities. -/
structure LoggingState where
  root : Logger
  table : List (String × Logger)
  nextHid : Nat
deriving DecidableEq

/-- The state at interpreter start: root logger at WARNING (30) with no
handlers, no named loggers yet. -/
def initialLoggingState : LoggingState :=
  ⟨⟨30, []⟩, [], 0⟩

/-- Lookup `logging.getLogger(name)`: the empty name yields the root logger; any
other name yields the logger of that name, freshly created (NOTSET, no
handlers) if not seen before. -/
def getLoggerD (st : LoggingState) (name : String) : Logger :=
  if name = "" then st.root
  else ((st.table.find? (fun p => p.1 = name)).map (·.2)).getD ⟨0, []⟩

/-- Store back a logger under its name (the root logger for the empty
name). -/
def setLoggerD (st : LoggingState) (name : String) (lg : Logger) :
    LoggingState :=
  if name = "" then { st with root := lg }
  else if (st.table.find? (fun p => p.1 = name)).isSome then
    { st with table := st.table.map (fun p => if p.1 = name then (name, lg) else p) }
  else
    { st with table := st.table ++ [(name, lg)] }

/-- Method `Logger.addHandler`: appends the handler unless this very object is
already installed. -/
def addHandler (lg : Logger) (h : Handler) : Logger :=
  if h ∈ lg.handlers then lg else { lg with handlers := lg.handlers ++ [h] }

/-- Conversion `logging._checkLevel` on a level name (`Logger.setLevel` accepts these
names; any other string raises `ValueError`). -/
def levelOfName (s : String) : Option Nat :=
  if s = "CRITICAL" then some 50
  else if s = "FATAL" then some 50
  else if s = "ERROR" then some 40
  else if s = "WARN" then some 30
  else if s = "WARNING" then some 30
  else if s = "INFO" then some 20
  else if s = "DEBUG" then some 10
  else if s = "NOTSET" then some 0
  else none

/-- Environment lookup (`os.getenv`). -/
def envGet (env : List (String × String)) (k : String) : Option String :=
  (env.find? (fun p => p.1 = k)).map (·.2)

/-- The function `configure_logger()` as a transformer of the logging-module state.

Source order: read `LOG_LEVEL` (default `"INFO"`, upper-cased) and
`DD_SERVICE` (default `"my-fastapi-app"`, used as the logger name); remove
every handler of the ROOT logger; set the root level to DEBUG (10); fetch
the application logger and set its level to `LOG_LEVEL` (a `ValueError`
for an unknown name is the `Except.error` branch); build one fresh
`StreamHandler(sys.stdout)` with the JSON formatter and add it to the
application logger; set the `ddtrace` logger to the same level and add the
SAME handler object to it; return the application logger (here: its name).
Note that only the handlers of the ROOT logger are cleared — the handlers the
application and ddtrace loggers already carry are left in place. -/
def configure_logger (env : List (String × String)) (st : LoggingState) :
    Except String (LoggingState × String) :=
  let logLevelName := pyToUpper ((envGet env "LOG_LEVEL").getD "INFO")
  let loggerName := (envGet env "DD_SERVICE").getD "my-fastapi-app"
  let st1 : LoggingState := { st with root := { st.root with handlers := [] } }
  let st2 : LoggingState := { st1 with root := { st1.root with level := 10 } }
  match levelOfName logLevelName with
  | none => .error ("Unknown level: " ++ logLevelName)
  | some lvl =>
      let appLg := { getLoggerD st2 loggerName with level := lvl }
      let h : Handler := ⟨st2.nextHid, "stdout", parseFmtFields fmtString⟩
      let appLg := addHandler appLg h
      let st3 := setLoggerD { st2 with nextHid := st2.nextHid + 1 } loggerName appLg
      let ddLg := { getLoggerD st3 "ddtrace" with level := lvl }
      let ddLg := addHandler ddLg h
      let st4 := setLoggerD st3 "ddtrace" ddLg
      .ok (st4, loggerName)

/-- Effective level of a logger: its own level if set, else that of the
root (the `logging` hierarchy walk, for the dot-free logger names of this
program). -/
def effLevel (st : LoggingState) (name : String) : Nat :=
  let lg := getLoggerD st name
  if lg.level ≠ 0 then lg.level else st.root.level

/-- How many handlers emit one record logged at level `lvl` on the named
logger: none if the record is below the effective level, else every handler
of the logger plus (by propagation) every handler of the root (the names
this program uses contain no dots, so the ancestor chain is just the
root; stream handlers keep the default handler level 0 and so accept every
record). -/
def emitCount (st : LoggingState) (name : String) (lvl : Nat) : Nat :=
  if lvl < effLevel st name then 0
  else ((if name = "" then [] else (getLoggerD st name).handlers)
          ++ st.root.handlers).length

/-- Two consecutive runs of `configure_logger` with the same environment
(as happens if the module-level `app_logger = configure_logger()` line runs
twice). -/
def configureTwice (env : List (String × String)) (st : LoggingState) :
    Except String (LoggingState × String) :=
  match configure_logger env st with
  | .error e => .error e
  | .ok (st1, _) => configure_logger env st1

/-! ### The JSON formatter -/

/-- The data of one `logging.LogRecord` that the configured formatter
reads: the canonical attributes plus the caller-supplied extras (which
`logging` refuses to let collide with canonical attribute names). -/
structure LogRecord where
  levelname : String
  asctime : String
  name : String
  message : String
  lineno : Nat
  pathname : String
  extras : List (String × PyVal)

/-- The value of a canonical record attribute, by field name. -/
def fieldValue (rec : LogRecord) : String → Option PyVal
  | "levelname" => some (.str rec.levelname)
  | "asctime" => some (.str rec.asctime)
  | "name" => some (.str rec.name)
  | "message" => some (.str rec.message)
  | "lineno" => some (.int rec.lineno)
  | "pathname" => some (.str rec.pathname)
  | _ => none

/-- Formatting `JsonFormatter.format`: the output JSON object holds the required
fields of the format string, in order, followed by the extras (whose keys
cannot collide with the required fields — they are reserved). -/
def jsonFormatWith (fields : List String) (rec : LogRecord) : PyVal :=
  .dict ((fields.filterMap (fun f => (fieldValue rec f).map (fun v => (f, v))))
          ++ rec.extras.filter (fun p => ¬ (p.1 ∈ fields)))

/-- Lookup in a JSON object (none on non-objects). -/
def dictLookup (v : PyVal) (k : String) : Option PyVal :=
  match v with
  | .dict l => lookupAssoc l k
  | _ => none

/-- Whether a value is a JSON object. -/
def isDict (v : PyVal) : Prop :=
  match v with
  | .dict _ => True
  | _ => False

/-! ### Concrete fixtures used to witness hypotheses at explicit inputs -/

/-- A recording downstream handler: returns 200 with an empty JSON body
and appends the request it was invoked on to the threaded state, making
the number of downstream invocations observable. -/
def recHandler : HttpRequest → List HttpRequest →
    Except PyError HttpResponse × List HttpRequest :=
  fun rq s => (.ok ⟨200, .dict []⟩, s ++ [rq])

/-- A concrete request to `/` carrying `X-Correlation-ID: abc123`. -/
def reqAbc : HttpRequest :=
  ⟨Route.root, [("X-Correlation-ID", "abc123")]⟩

/-- A concrete request to `/` with no headers. -/
def reqPlain : HttpRequest :=
  ⟨Route.root, []⟩

/-- A concrete request to `/items/5` carrying `X-Correlation-ID: abc123`. -/
def reqItemsAbc : HttpRequest :=
  ⟨Route.items 5, [("X-Correlation-ID", "abc123")]⟩

/-- A concrete request to `/error` carrying `X-Correlation-ID: abc123`. -/
def reqErrAbc : HttpRequest :=
  ⟨Route.err, [("X-Correlation-ID", "abc123")]⟩

/-- The logging-module state after one run of `configure_logger` with an
empty environment, written out: root cleared and at DEBUG, the application
logger and the `ddtrace` logger each carrying the one freshly created
stream handler. -/
def loggingStateAfterOne : LoggingState :=
  ⟨⟨10, []⟩,
   [("my-fastapi-app", ⟨20, [⟨0, "stdout", parseFmtFields fmtString⟩]⟩),
    ("ddtrace", ⟨20, [⟨0, "stdout", parseFmtFields fmtString⟩]⟩)],
   1⟩

/-- The logging-module state after a second run of `configure_logger` with
an empty environment: the application and `ddtrace` loggers now carry TWO
handlers each — the handler from the first run was never removed. -/
def loggingStateAfterTwo : LoggingState :=
  ⟨⟨10, []⟩,
   [("my-fastapi-app",
     ⟨20, [⟨0, "stdout", parseFmtFields fmtString⟩,
           ⟨1, "stdout", parseFmtFields fmtString⟩]⟩),
    ("ddtrace",
     ⟨20, [⟨0, "stdout", parseFmtFields fmtString⟩,
           ⟨1, "stdout", parseFmtFields fmtString⟩]⟩)],
   2⟩

/-! ## Theorems -/

/-- C3: for every integer id and dict payload, `process_item_data` returns
`{"id": id, "name": n, "status": "processed", "original_data": payload}`
with `n = payload["name"]` when present and `n = "Item <id>"` otherwise;
in particular `process(5, {})` yields name `"Item 5"` and
`process(5, {"name": "Widget"})` yields name `"Widget"`. -/
theorem process_item_data_shape :
    (∀ (item_id : Int) (payload : List (String × PyVal)),
      (process_item_data item_id payload).1 =
        .ok (.dict [("id", .int item_id),
                    ("name", match lookupAssoc payload "name" with
                             | some v => v
                             | none => .str ("Item " ++ toString item_id)),
                    ("status", .str "processed"),
                    ("original_data", .dict payload)]))
    ∧ (process_item_data 5 []).1 =
        .ok (.dict [("id", .int 5), ("name", .str "Item 5"),
                    ("status", .str "processed"), ("original_data", .dict [])])
    ∧ (process_item_data 5 [("name", .str "Widget")]).1 =
        .ok (.dict [("id", .int 5), ("name", .str "Widget"),
                    ("status", .str "processed"),
                    ("original_data", .dict [("name", .str "Widget")])]) := by
  refine ⟨fun item_id payload => ?_, rfl, rfl⟩
  cases h : lookupAssoc payload "name" <;>
    simp [process_item_data, processWith, itemBody, itemRecord, h]

/-- C10: `process_item_data` always returns normally — for every input the
result is the successful item record (the `try` body only builds a dict
literal and calls `dict.get` with a default), and no event it logs has
error severity (the `except` branch is never taken). -/
theorem process_item_data_never_raises (item_id : Int)
    (payload : List (String × PyVal)) :
    (process_item_data item_id payload).1 = .ok (itemRecord item_id payload)
    ∧ ∀ ev ∈ (process_item_data item_id payload).2, ev.level ≠ Level.error := by
  refine ⟨rfl, ?_⟩
  intro ev hev
  simp [process_item_data, processWith, itemBody] at hev
  rcases hev with h | h <;> simp [h]

/-- C5: the `try`/`except` of `process_item_data` re-raises any fault of the
body as the very same exception (never a normal return), after logging at
error severity a message carrying the exception detail. -/
theorem process_item_data_reraises (item_id : Int)
    (body : Except PyError PyVal) (e : PyError) (h : body = .error e) :
    (processWith item_id body).1 = .error e
    ∧ ∃ ev ∈ (processWith item_id body).2,
        ev.level = Level.error
        ∧ ev.message =
            "ItemService: Error processing item ID " ++ toString item_id
              ++ ": " ++ e.msg := by
  subst h
  refine ⟨rfl,
    ⟨⟨Level.error,
      "ItemService: Error processing item ID " ++ toString item_id ++ ": " ++ e.msg,
      [("item_id", .int item_id)]⟩, ?_, rfl, rfl⟩⟩
  simp [processWith]

/-- Witness for C5 at item id 7 and a concrete fault. -/
theorem process_item_data_reraises_witness :
    (processWith 7 (.error ⟨"boom"⟩)).1 = .error ⟨"boom"⟩
    ∧ ∃ ev ∈ (processWith 7 (.error ⟨"boom"⟩)).2,
        ev.level = Level.error
        ∧ ev.message =
            "ItemService: Error processing item ID " ++ toString (7 : Int)
              ++ ": " ++ "boom" :=
  process_item_data_reraises 7 (.error ⟨"boom"⟩) ⟨"boom"⟩ rfl

/-- C6: whenever the service call of the `/items/{item_id}` route raises a
fault `e`, the route handler logs the fault again at error severity and
returns a 500 response whose detail is `str(e)`; the status is never in the
2xx range. -/
theorem read_item_fault_500 (item_id : Int)
    (svc : Except PyError PyVal × List LogEvent) (e : PyError)
    (h : svc.1 = .error e) :
    (read_item_with item_id svc).1 =
      ⟨500, .dict [("detail", .str e.msg)]⟩
    ∧ (∃ ev ∈ (read_item_with item_id svc).2, ev.level = Level.error)
    ∧ ¬(200 ≤ (read_item_with item_id svc).1.status
          ∧ (read_item_with item_id svc).1.status < 300) := by
  obtain ⟨r, svcLogs⟩ := svc
  simp only at h
  subst h
  refine ⟨rfl,
    ⟨⟨Level.error,
      "Failed to process item " ++ toString item_id ++ " in API route: " ++ e.msg,
      [("item_id_param", .int item_id)]⟩, by simp [read_item_with], rfl⟩, ?_⟩
  simp [read_item_with]

/-- Witness for C6 at item id 9 and a concrete fault. -/
theorem read_item_fault_500_witness :
    (read_item_with 9 (.error ⟨"oops"⟩, [])).1 =
      ⟨500, .dict [("detail", .str "oops")]⟩
    ∧ (∃ ev ∈ (read_item_with 9 (.error ⟨"oops"⟩, [])).2,
        ev.level = Level.error)
    ∧ ¬(200 ≤ (read_item_with 9 (.error ⟨"oops"⟩, [])).1.status
          ∧ (read_item_with 9 (.error ⟨"oops"⟩, [])).1.status < 300) :=
  read_item_fault_500 9 (.error ⟨"oops"⟩, []) ⟨"oops"⟩ rfl

/-- C1 (code bug at main.py:43): evaluating the middleware at the failing
input — a request carrying `X-Correlation-ID: abc123` — with the uncalled
`tracer.current_span` method reference modelled faithfully: whatever the
actual active span (an empty span or none), the middleware raises
AttributeError, the span is left untouched (it never acquires any
`correlation_id` tag), no event at all is logged (in particular no
warning), and the downstream handler is never invoked, so the response is
not the downstream response. -/
theorem middleware_correlation_id_crash :
    (process_request_and_log_context recHandler (some ⟨[]⟩) reqAbc []).1.response =
        .error (.attributeError "method object has no attribute set_tag")
    ∧ (process_request_and_log_context recHandler (some ⟨[]⟩) reqAbc []).1.span =
        some ⟨[]⟩
    ∧ (process_request_and_log_context recHandler (some ⟨[]⟩) reqAbc []).1.logs = []
    ∧ (process_request_and_log_context recHandler (some ⟨[]⟩) reqAbc []).2 = []
    ∧ (process_request_and_log_context recHandler none reqAbc []).1.logs = []
    ∧ (process_request_and_log_context recHandler none reqAbc []).1.response =
        .error (.attributeError "method object has no attribute set_tag") :=
  ⟨rfl, rfl, rfl, rfl, rfl, rfl⟩

/-- C7 (code bug at main.py:43): on a request carrying a non-empty
`X-Correlation-ID` the middleware makes ZERO downstream calls (the recorder
stays empty) and surfaces its own AttributeError instead of a downstream
outcome, falsifying "forwards exactly one call downstream for every
inbound request"; on a request without the header the claimed frame
property does hold — exactly one downstream call, on the unaltered
request, with the downstream response returned unchanged. -/
theorem middleware_frame_broken_by_correlation_id :
    (process_request_and_log_context recHandler none reqAbc []).2 = []
    ∧ (process_request_and_log_context recHandler none reqAbc []).1.response =
        .error (.attributeError "method object has no attribute set_tag")
    ∧ (process_request_and_log_context recHandler none reqPlain []).2 = [reqPlain]
    ∧ (process_request_and_log_context recHandler none reqPlain []).1.response =
        .ok ⟨200, .dict []⟩ :=
  ⟨rfl, rfl, rfl, rfl⟩

/-- C4 (code bug at main.py:43): `GET /items/5` with
`X-Correlation-ID: abc123` is answered by the crashed middleware as a
plain-text 500 "Internal Server Error" — not the claimed 200 item body;
without the header, every `GET /items/{item_id}` does return 200 with
exactly the claimed body, whatever the active span. -/
theorem items_route_crash_on_correlation_id :
    serve (some ⟨[]⟩) reqItemsAbc = ⟨500, .str "Internal Server Error"⟩
    ∧ serve (some ⟨[]⟩) reqItemsAbc ≠
        ⟨200, .dict
          [("id", .int 5),
           ("name", .str "Product 5"),
           ("status", .str "processed"),
           ("original_data", .dict [("name", .str "Product 5")])]⟩
    ∧ (∀ (item_id : Int) (activeSpan : Option Span),
        serve activeSpan ⟨.items item_id, []⟩ =
          ⟨200, .dict
            [("id", .int item_id),
             ("name", .str ("Product " ++ toString item_id)),
             ("status", .str "processed"),
             ("original_data",
              .dict [("name", .str ("Product " ++ toString item_id))])]⟩) := by
  refine ⟨rfl, by simp [serve, handle, process_request_and_log_context,
    pyTruthyOpt, headerGet, reqItemsAbc, pyToLower], ?_⟩
  intro item_id activeSpan
  simp [serve, handle, process_request_and_log_context, pyTruthyOpt, headerGet,
        app_call_next, read_item, read_item_with, process_item_data,
        processWith, itemBody, itemRecord, lookupAssoc]

/-- C8 (code bug at main.py:43): `GET /error` with
`X-Correlation-ID: abc123` never reaches the route handler — the crashed
middleware yields a plain-text 500 whose body has no `detail` field at
all, contradicting "status 500 with detail exactly the fixed message for
every request regardless of headers"; without the header the route does
return 500 with exactly the fixed detail, whatever the active span. -/
theorem error_route_crash_on_correlation_id :
    serve (some ⟨[]⟩) reqErrAbc = ⟨500, .str "Internal Server Error"⟩
    ∧ dictLookup (serve (some ⟨[]⟩) reqErrAbc).body "detail" = none
    ∧ (∀ activeSpan : Option Span,
        serve activeSpan ⟨.err, []⟩ =
          ⟨500, .dict [("detail", .str "An intentional server error occurred.")]⟩) := by
  refine ⟨rfl, rfl, ?_⟩
  intro activeSpan
  simp [serve, handle, process_request_and_log_context, pyTruthyOpt, headerGet,
        app_call_next, simulate_error]

/-- Counterexample to C2: running `configure_logger` twice from a fresh
interpreter state with an empty environment leaves the application logger
with TWO active handlers (not one) while the root logger has none, and a
single info-level event logged on the application logger is emitted twice
(not exactly once). -/
theorem configure_twice_not_idempotent :
    ((configureTwice [] initialLoggingState).toOption.map
      (fun p => ((getLoggerD p.1 p.2).handlers.length,
                 p.1.root.handlers.length,
                 emitCount p.1 p.2 20))) = some (2, 0, 2)
    ∧ ((configureTwice [] initialLoggingState).toOption.map
        (fun p => (getLoggerD p.1 p.2).handlers.length)) ≠ some 1 := by
  constructor <;> decide

/-- C2 as amended: re-running the logging configuration is NOT idempotent
for the application logger.  Each run clears the handlers of the root logger,
but appends a fresh stream handler to the application logger (existing
handlers of which are never removed): for any environment whose
application-logger name is non-empty, after a second successful run the
application logger holds exactly two handlers while the first run left
exactly one, the handler list of the root logger is empty — and with the
default environment one info event on the application logger is emitted
twice, once per duplicated handler. -/
theorem configure_twice_accumulates (env : List (String × String))
    (st1 st2 : LoggingState) (nm1 nm2 : String)
    (h1 : configure_logger env initialLoggingState = .ok (st1, nm1))
    (h2 : configure_logger env st1 = .ok (st2, nm2))
    (hnm : nm1 ≠ "") :
    (nm2 = nm1
     ∧ (getLoggerD st1 nm1).handlers.length = 1
     ∧ (getLoggerD st2 nm1).handlers.length = 2
     ∧ st2.root.handlers = [])
    ∧ ((configureTwice [] initialLoggingState).toOption.map
        (fun p => emitCount p.1 p.2 20)) = some 2 := by
  constructor
  · rcases hl : levelOfName (pyToUpper ((envGet env "LOG_LEVEL").getD "INFO"))
      with _ | lvl <;> simp only [configure_logger, hl] at h1 h2
    · cases h1
    · simp only [Except.ok.injEq, Prod.mk.injEq] at h1 h2
      obtain ⟨hst1, hnm1⟩ := h1
      obtain ⟨hst2, hnm2⟩ := h2
      subst hst1 hnm1 hst2 hnm2
      by_cases hdd : ((envGet env "DD_SERVICE").getD "my-fastapi-app") = "ddtrace"
      · simp [getLoggerD, setLoggerD, addHandler, initialLoggingState, hnm, hdd]
      · simp [getLoggerD, setLoggerD, addHandler, initialLoggingState, hnm, hdd,
              Ne.symm hdd]
  · decide

/-- Witness for the amended C2 at the empty environment, with both
post-run states written out explicitly. -/
theorem configure_twice_accumulates_witness :
    (("my-fastapi-app" : String) = "my-fastapi-app"
     ∧ (getLoggerD loggingStateAfterOne "my-fastapi-app").handlers.length = 1
     ∧ (getLoggerD loggingStateAfterTwo "my-fastapi-app").handlers.length = 2
     ∧ loggingStateAfterTwo.root.handlers = [])
    ∧ ((configureTwice [] initialLoggingState).toOption.map
        (fun p => emitCount p.1 p.2 20)) = some 2 :=
  configure_twice_accumulates [] loggingStateAfterOne loggingStateAfterTwo
    "my-fastapi-app" "my-fastapi-app" rfl rfl (by decide)

/-- C9: every record formatted with the configured JSON formatter (required
fields parsed from `fmtString`) is a JSON object containing the severity
(`levelname`), the timestamp (`asctime`), the logger name (`name`) and the
message (`message`), whatever the record and its extras. -/
theorem formatter_canonical_fields (rec : LogRecord) :
    isDict (jsonFormatWith (parseFmtFields fmtString) rec)
    ∧ dictLookup (jsonFormatWith (parseFmtFields fmtString) rec) "levelname" =
        some (.str rec.levelname)
    ∧ dictLookup (jsonFormatWith (parseFmtFields fmtString) rec) "asctime" =
        some (.str rec.asctime)
    ∧ dictLookup (jsonFormatWith (parseFmtFields fmtString) rec) "name" =
        some (.str rec.name)
    ∧ dictLookup (jsonFormatWith (parseFmtFields fmtString) rec) "message" =
        some (.str rec.message) := by
  have hf : parseFmtFields fmtString =
      ["levelname", "asctime", "name", "message", "lineno", "pathname"] := by
    decide
  rw [hf]
  simp [jsonFormatWith, fieldValue, dictLookup, lookupAssoc, isDict]
